import Mathlib

/-!
Verification of the span-to-envelope converter (src/lib.rs) and the
QuickPulse live-metrics controller (src/quick_pulse.rs) of the
opentelemetry-application-insights exporter.

The data model and the operations are shallowly embedded from the Rust
source.  The repository modules convert.rs, models.rs and tags.rs are not
part of the provided sources; the helpers they export (collect_attrs,
attrs_to_properties, duration_to_string, time_to_string, span_id_to_string,
the Sanitize trait and the tag builders) are modelled from the spec, each
with a doc comment saying so.  Machine times and durations are modelled as
natural numbers of nanoseconds (seconds for the QuickPulse interval
constants); floating point values that no claim computes with are modelled
as rationals.
-/

namespace AppInsights

/-- Span kind, from the opentelemetry SDK (external collaborator): one of
the five kinds the converter dispatches on. -/
inductive SpanKind where
  | server
  | consumer
  | client
  | producer
  | internal
deriving DecidableEq, Repr

/-- An attribute map: ordered list of key/value pairs, keyed by string.
Typed scalar values are represented after string coercion, which is all
the converter observes of them. -/
abbrev AttrMap : Type := List (String × String)

/-- Lookup in an attribute map: the value of the first pair with the given
key, mirroring map lookup (keys are unique in the source BTreeMap). -/
def attrsGet (attrs : AttrMap) (key : String) : Option String :=
  (List.find? (fun kv => kv.1 == key) attrs).map (fun kv => kv.2)

/-- An event attached to a span: name, timestamp, own attributes. -/
structure EventData where
  name : String
  timestamp : Nat
  attributes : AttrMap
deriving DecidableEq, Repr

/-- The span data consumed from the tracing SDK: identifiers, kind, name,
start and end times (nanoseconds since the Unix epoch), numeric status
code (0 is the OK status), attributes, events and resource attributes. -/
structure SpanData where
  trace_id : Nat
  span_id : Nat
  parent_span_id : Option Nat
  span_kind : SpanKind
  name : String
  start_time : Nat
  end_time : Nat
  status_code : Nat
  attributes : AttrMap
  message_events : List EventData
  resource : AttrMap
deriving DecidableEq, Repr

/-- The OK status code of the SDK status enumeration: its numeric value
is 0, and success of a request or dependency is status equal to OK. -/
def statusOK : Nat := 0

/-- Rust SystemTime.duration_since: the duration from earlier to later,
or failure (None) when the readings are out of order. -/
def durationSince (later earlier : Nat) : Option Nat :=
  if earlier ≤ later then some (later - earlier) else none

/-- Modelled from the spec: span_id_to_string (convert.rs is not in the
provided sources) hex-encodes a span identifier. -/
def span_id_to_string (id : Nat) : String :=
  String.mk (Nat.toDigits 16 id)

/-- Modelled from the spec: trace ids are hex-encoded the same way. -/
def trace_id_to_string (id : Nat) : String :=
  String.mk (Nat.toDigits 16 id)

/-- Modelled from the spec: time_to_string (convert.rs is not in the
provided sources) renders a timestamp as an ISO-8601 string; no claim
depends on the concrete format, so an injective rendering of the
nanosecond timestamp stands in for it. -/
def time_to_string (t : Nat) : String :=
  String.mk (Nat.toDigits 10 t)

/-- Left-pad a digit string with zeros to the given width. -/
def padZeros (width : Nat) (s : String) : String :=
  String.mk (List.replicate (width - s.length) (Char.ofNat 48)) ++ s

/-- Modelled from the spec: duration_to_string (convert.rs is not in the
provided sources) formats a duration as a fixed-precision
day.hour:minute:second.fraction string. -/
def duration_to_string (d : Nat) : String :=
  let micros := d / 1000 % 1000000
  let secs := d / 1000000000
  let days := secs / 86400
  let hours := secs / 3600 % 24
  let mins := secs / 60 % 60
  let s := secs % 60
  String.mk (Nat.toDigits 10 days) ++ "." ++
    padZeros 2 (String.mk (Nat.toDigits 10 hours)) ++ ":" ++
    padZeros 2 (String.mk (Nat.toDigits 10 mins)) ++ ":" ++
    padZeros 2 (String.mk (Nat.toDigits 10 s)) ++ "." ++
    padZeros 6 (String.mk (Nat.toDigits 10 micros))

/-- Modelled from the spec: collect_attrs (convert.rs is not in the
provided sources) merges span and resource attributes into a single
mapping keyed by string, span attributes taking precedence over resource
attributes on key collision. -/
def collect_attrs (span_attrs resource_attrs : AttrMap) : AttrMap :=
  span_attrs ++ List.filter
    (fun kv => !(List.any span_attrs (fun kv2 => kv2.1 == kv.1))) resource_attrs

/-- The attribute keys consumed into special fields (the mapping table of
the crate documentation), plus enduser.id which only the tag builder
consumes. -/
def specialKeys : List String :=
  ["enduser.id", "http.url", "db.statement", "http.host", "net.peer.name",
   "db.name", "http.status_code", "db.system", "messaging.system",
   "http.target", "http.method", "http.route"]

/-- Modelled from the spec: attrs_to_properties (convert.rs is not in the
provided sources) copies every attribute not matched by a special-field
rule into the custom-properties mapping, in original key order; an empty
mapping is represented as absent. -/
def attrs_to_properties (attrs : AttrMap) : Option AttrMap :=
  let props := List.filter (fun kv => !(List.contains specialKeys kv.1)) attrs
  if props.isEmpty then none else some props

/-- RequestData payload, the fields assigned by the converter
(models.rs is not in the provided sources; the field list and their
option-ness follow the constructor in src/lib.rs). -/
structure RequestData where
  ver : Nat
  id : String
  name : Option String
  duration : String
  response_code : String
  success : Bool
  source : Option String
  url : Option String
  properties : Option AttrMap
deriving DecidableEq, Repr

/-- RemoteDependencyData payload, the fields assigned by the converter
(models.rs is not in the provided sources; the field list and their
option-ness follow the constructor in src/lib.rs — in particular the name
field is a plain string there, not an option). -/
structure RemoteDependencyData where
  ver : Nat
  id : Option String
  name : String
  duration : String
  result_code : Option String
  success : Option Bool
  data : Option String
  target : Option String
  type_ : Option String
  properties : Option AttrMap
deriving DecidableEq, Repr

/-- MessageData payload built from an event. -/
structure MessageData where
  ver : Nat
  message : String
  properties : Option AttrMap
deriving DecidableEq, Repr

/-- From &SpanData for RequestData (src/lib.rs lines 229-274). -/
def requestDataFromSpan (span : SpanData) : RequestData :=
  let data : RequestData :=
    { ver := 2
      id := span_id_to_string span.span_id
      name := Option.filter (fun x => !x.isEmpty) (some span.name)
      duration := duration_to_string
        ((durationSince span.end_time span.start_time).getD 0)
      response_code := String.mk (Nat.toDigits 10 span.status_code)
      success := span.status_code == statusOK
      source := none
      url := none
      properties := none }
  let attrs := collect_attrs span.attributes span.resource
  let data :=
    match attrsGet attrs "http.method" with
    | some method =>
        match attrsGet attrs "http.route" with
        | some route => { data with name := some (method ++ " " ++ route) }
        | none => { data with name := some method }
    | none => data
  let data :=
    match attrsGet attrs "http.status_code" with
    | some status_code => { data with response_code := status_code }
    | none => data
  let data :=
    match attrsGet attrs "http.url" with
    | some url => { data with url := some url }
    | none =>
        match attrsGet attrs "http.target" with
        | some target => { data with url := some target }
        | none => data
  { data with properties := attrs_to_properties attrs }

/-- From &SpanData for RemoteDependencyData (src/lib.rs lines 276-331). -/
def remoteDependencyDataFromSpan (span : SpanData) : RemoteDependencyData :=
  let data : RemoteDependencyData :=
    { ver := 2
      id := some (span_id_to_string span.span_id)
      name := span.name
      duration := duration_to_string
        ((durationSince span.end_time span.start_time).getD 0)
      result_code := some (String.mk (Nat.toDigits 10 span.status_code))
      success := some (span.status_code == statusOK)
      data := none
      target := none
      type_ := none
      properties := none }
  let attrs := collect_attrs span.attributes span.resource
  let data :=
    match attrsGet attrs "http.status_code" with
    | some status_code => { data with result_code := some status_code }
    | none => data
  let data :=
    match attrsGet attrs "http.url" with
    | some url => { data with data := some url }
    | none =>
        match attrsGet attrs "db.statement" with
        | some statement => { data with data := some statement }
        | none => data
  let data :=
    match attrsGet attrs "http.host" with
    | some host => { data with target := some host }
    | none =>
        match attrsGet attrs "net.peer.name" with
        | some peer_name => { data with target := some peer_name }
        | none =>
            match attrsGet attrs "db.name" with
            | some db_name => { data with target := some db_name }
            | none => data
  let data :=
    if span.span_kind == SpanKind.internal then
      { data with type_ := some "InProc", success := some true }
    else
      match attrsGet attrs "db.system" with
      | some db_system => { data with type_ := some db_system }
      | none =>
          match attrsGet attrs "messaging.system" with
          | some messaging_system => { data with type_ := some messaging_system }
          | none =>
              if List.any attrs (fun kv => kv.1.startsWith "http.") then
                { data with type_ := some "HTTP" }
              else if List.any attrs (fun kv => kv.1.startsWith "db.") then
                { data with type_ := some "DB" }
              else data
  { data with properties := attrs_to_properties attrs }

/-- From &Event for MessageData (src/lib.rs lines 333-352). -/
def messageDataFromEvent (event : EventData) : MessageData :=
  { ver := 2
    message := if event.name.isEmpty then "<no message>" else event.name
    properties :=
      Option.filter (fun x => !x.isEmpty) (some event.attributes) }

/-- The payload discriminated union carried by an envelope. -/
inductive Data where
  | request (d : RequestData)
  | remoteDependency (d : RemoteDependencyData)
  | message (d : MessageData)
deriving DecidableEq, Repr

/-- A tag mapping: ordered mapping from context-tag identifiers (modelled
as strings) to string values. -/
abbrev TagMap : Type := List (String × String)

/-- The transport envelope wrapping one payload. -/
structure Envelope where
  name : String
  time : String
  sample_rate : Option ℚ
  i_key : Option String
  tags : Option TagMap
  data : Option Data
deriving DecidableEq, Repr

/-- Modelled from the spec: the Sanitizer (models.rs is not in the
provided sources) truncates oversized strings to the backend field
limits; the exact per-field limits are left open by the spec, so a single
length constant stands in for them. -/
def MAX_FIELD_LENGTH : Nat := 1024

/-- Truncate one string to the modelled backend limit. -/
def truncateField (s : String) : String :=
  if s.length ≤ MAX_FIELD_LENGTH then s else s.take MAX_FIELD_LENGTH

/-- Truncate the keys and values of a property or tag mapping. -/
def truncatePairs (pairs : List (String × String)) : List (String × String) :=
  List.map (fun kv => (truncateField kv.1, truncateField kv.2)) pairs

/-- Modelled from the spec: RequestData.sanitize truncates the string
fields and the custom properties in place. -/
def sanitizeRequestData (d : RequestData) : RequestData :=
  { d with
    name := Option.map truncateField d.name
    response_code := truncateField d.response_code
    url := Option.map truncateField d.url
    properties := Option.map truncatePairs d.properties }

/-- Modelled from the spec: RemoteDependencyData.sanitize truncates the
string fields and the custom properties in place. -/
def sanitizeRemoteDependencyData (d : RemoteDependencyData) : RemoteDependencyData :=
  { d with
    name := truncateField d.name
    result_code := Option.map truncateField d.result_code
    data := Option.map truncateField d.data
    target := Option.map truncateField d.target
    type_ := Option.map truncateField d.type_
    properties := Option.map truncatePairs d.properties }

/-- Modelled from the spec: MessageData.sanitize truncates the message
and the properties in place. -/
def sanitizeMessageData (d : MessageData) : MessageData :=
  { d with
    message := truncateField d.message
    properties := Option.map truncatePairs d.properties }

/-- Modelled from the spec: Envelope.sanitize truncates oversized tag
values; it runs last, at envelope assembly, the payload having been
sanitized already. -/
def sanitizeEnvelope (e : Envelope) : Envelope :=
  { e with tags := Option.map truncatePairs e.tags }

/-- Modelled from the spec: get_common_tags (tags.rs is not in the
provided sources) builds the process-wide common tag set (role name and
SDK version). -/
def get_common_tags : TagMap :=
  [("ai.internal.sdkVersion", "rust:opentelemetry-application-insights"),
   ("ai.cloud.role", "unknown_service")]

/-- The context tag key the application version is stored under. -/
def APPLICATION_VERSION : String := "ai.application.ver"

/-- Modelled from the spec: get_tags_for_span (tags.rs is not in the
provided sources) derives the per-record context tags from the span:
operation id from the trace id, operation parent id from the parent span
id when present, authenticated user id from the enduser.id attribute when
present. -/
def get_tags_for_span (span : SpanData) (_props : Option AttrMap) : TagMap :=
  let base := [("ai.operation.id", trace_id_to_string span.trace_id)]
  let base :=
    match span.parent_span_id with
    | some p => base ++ [("ai.operation.parentId", span_id_to_string p)]
    | none => base
  match attrsGet (collect_attrs span.attributes span.resource) "enduser.id" with
  | some user => base ++ [("ai.user.authUserId", user)]
  | none => base

/-- Modelled from the spec: get_tags_for_event (tags.rs is not in the
provided sources) derives the context tags of a message envelope from its
parent span: operation id from the trace id, parent id from the span
id. -/
def get_tags_for_event (span : SpanData) : TagMap :=
  [("ai.operation.id", trace_id_to_string span.trace_id),
   ("ai.operation.parentId", span_id_to_string span.span_id)]

/-- Modelled from the spec: merge_tags (tags.rs is not in the provided
sources) merges the common tags underneath the per-record tags, the
per-record values winning on key collision. -/
def merge_tags (common specific : TagMap) : TagMap :=
  specific ++ List.filter
    (fun kv => !(List.any specific (fun kv2 => kv2.1 == kv.1))) common

/-- The exporter configuration (src/lib.rs lines 90-95): routing key,
common tags, sample rate stored as a percentage. -/
structure Exporter where
  instrumentation_key : String
  common_tags : TagMap
  sample_rate : ℚ
deriving DecidableEq, Repr

/-- Exporter.new (src/lib.rs lines 99-106). -/
def Exporter.new (instrumentation_key : String) : Exporter :=
  { instrumentation_key := instrumentation_key
    common_tags := get_common_tags
    sample_rate := 100 }

/-- Exporter.with_application_version (src/lib.rs lines 114-117),
insertion into the common-tag map modelled as association-list update. -/
def Exporter.with_application_version (e : Exporter) (ver : String) : Exporter :=
  { e with common_tags :=
      (APPLICATION_VERSION, ver) ::
        List.filter (fun kv => !(kv.1 == APPLICATION_VERSION)) e.common_tags }

/-- Exporter.with_sample_rate (src/lib.rs lines 137-141): the rate is
stored as a percentage. -/
def Exporter.with_sample_rate (e : Exporter) (sample_rate : ℚ) : Exporter :=
  { e with sample_rate := sample_rate * 100 }

/-- Exporter.create_envelopes (src/lib.rs lines 143-203): one primary
envelope per span, dispatched on the span kind, plus one message envelope
per event. -/
def create_envelopes (e : Exporter) (span : SpanData) : List Envelope :=
  let step :=
    match span.span_kind with
    | SpanKind.server | SpanKind.consumer =>
        let data := requestDataFromSpan span
        let tags := get_tags_for_span span data.properties
        let data := sanitizeRequestData data
        (Data.request data, tags, "Microsoft.ApplicationInsights.Request")
    | SpanKind.client | SpanKind.producer | SpanKind.internal =>
        let data := remoteDependencyDataFromSpan span
        let tags := get_tags_for_span span data.properties
        let data := sanitizeRemoteDependencyData data
        (Data.remoteDependency data, tags,
          "Microsoft.ApplicationInsights.RemoteDependency")
  let primary := sanitizeEnvelope
    { name := step.2.2
      time := time_to_string span.start_time
      sample_rate := some e.sample_rate
      i_key := some e.instrumentation_key
      tags := some (merge_tags e.common_tags step.2.1)
      data := some step.1 }
  primary :: List.map
    (fun event => sanitizeEnvelope
      { name := "Microsoft.ApplicationInsights.Message"
        time := time_to_string event.timestamp
        sample_rate := some e.sample_rate
        i_key := some e.instrumentation_key
        tags := some (merge_tags e.common_tags (get_tags_for_event span))
        data := some (Data.message (sanitizeMessageData
          (messageDataFromEvent event))) })
    span.message_events

/-! QuickPulse live-metrics controller (src/quick_pulse.rs).  Durations
and timestamps in this part are in seconds; the timestamp origin is the
Unix epoch. -/

/-- MAX_POST_WAIT_TIME (src/quick_pulse.rs line 18), seconds. -/
def MAX_POST_WAIT_TIME : Nat := 20

/-- MAX_PING_WAIT_TIME (src/quick_pulse.rs line 19), seconds. -/
def MAX_PING_WAIT_TIME : Nat := 60

/-- FALLBACK_INTERVAL (src/quick_pulse.rs line 20), seconds. -/
def FALLBACK_INTERVAL : Nat := 60

/-- PING_INTERVAL (src/quick_pulse.rs line 21), seconds. -/
def PING_INTERVAL : Nat := 5

/-- POST_INTERVAL (src/quick_pulse.rs line 22), seconds. -/
def POST_INTERVAL : Nat := 1

/-- The running metric accumulator (QuickPulseMetric of the models;
value modelled as a rational, weight as a natural number). -/
structure QuickPulseMetric where
  name : String
  value : ℚ
  weight : Nat
deriving DecidableEq, Repr

/-- add_metric (src/quick_pulse.rs lines 159-167): fold one sample into
the running mean. -/
def add_metric (metric : QuickPulseMetric) (value : ℚ) : QuickPulseMetric :=
  if metric.weight = 0 then
    { metric with value := value, weight := 1 }
  else
    { metric with
      value := (metric.value * metric.weight + value) / (metric.weight + 1)
      weight := metric.weight + 1 }

/-- reset_metric (src/quick_pulse.rs lines 169-172). -/
def reset_metric (metric : QuickPulseMetric) : QuickPulseMetric :=
  { metric with value := 0, weight := 0 }

/-- The response of a successful ping or post exchange
(uploader_quick_pulse is an external collaborator; the field list follows
its use in src/quick_pulse.rs lines 103-120). -/
structure QuickPulseResponse where
  should_post : Bool
  redirected_host : Option String
  polling_interval_hint : Option Nat
deriving DecidableEq, Repr

/-- The controller-owned mutable state of the QuickPulse loop
(src/quick_pulse.rs lines 36-47): collecting flag, last success time
(seconds since the Unix epoch), redirect and interval hints, and the wait
before the next tick. -/
structure QPState where
  is_collecting : Bool
  last_success_time : Nat
  redirected_host : Option String
  polling_interval_hint : Option Nat
  current_timeout : Nat
deriving DecidableEq, Repr

/-- The state at loop entry (src/quick_pulse.rs lines 36-47):
not collecting, last success at the Unix epoch, no hints, first wait the
ping interval. -/
def initialQPState : QPState :=
  { is_collecting := false
    last_success_time := 0
    redirected_host := none
    polling_interval_hint := none
    current_timeout := PING_INTERVAL }

/-- now.duration_since(t).unwrap_or(Duration::MAX) compared against a
threshold: Duration::MAX is not below either wait threshold, so the
failure case of duration_since compares as true. -/
def elapsedAtLeast (elapsed : Option Nat) (threshold : Nat) : Bool :=
  match elapsed with
  | some d => threshold ≤ d
  | none => true

/-- One iteration of the QuickPulse loop after the exchange, the state
and next-wait update of src/quick_pulse.rs lines 103-139: on success
(res is some response) adopt the should_post hint, record the success
time and remember redirect and interval hints; then compute the next
wait from the (possibly new) collecting flag; on failure apply the
staleness rule. -/
def qpTick (st : QPState) (now : Nat) (res : Option QuickPulseResponse) : QPState :=
  let st1 :=
    match res with
    | some r =>
        { st with
          last_success_time := now
          is_collecting := r.should_post
          redirected_host :=
            match r.redirected_host with
            | some h => some h
            | none => st.redirected_host
          polling_interval_hint :=
            match r.polling_interval_hint with
            | some p => some p
            | none => st.polling_interval_hint }
    | none => st
  let timeout :=
    if st1.is_collecting then POST_INTERVAL
    else st1.polling_interval_hint.getD PING_INTERVAL
  match res with
  | some _ => { st1 with current_timeout := timeout }
  | none =>
      let time_since_last_success := durationSince now st1.last_success_time
      if st1.is_collecting &&
          elapsedAtLeast time_since_last_success MAX_POST_WAIT_TIME then
        { st1 with is_collecting := false, current_timeout := FALLBACK_INTERVAL }
      else if !st1.is_collecting &&
          elapsedAtLeast time_since_last_success MAX_PING_WAIT_TIME then
        { st1 with current_timeout := FALLBACK_INTERVAL }
      else
        { st1 with current_timeout := timeout }

/-! Definitions supporting the claim statements and their witnesses. -/

/-- The attribute-based dependency-type rule of the spec, evaluated over
a merged attribute map: db.system, else messaging.system, else HTTP on an
http.-prefixed key, else DB on a db.-prefixed key, else absent. -/
def depTypeRule (attrs : AttrMap) : Option String :=
  match attrsGet attrs "db.system" with
  | some db_system => some db_system
  | none =>
      match attrsGet attrs "messaging.system" with
      | some messaging_system => some messaging_system
      | none =>
          if List.any attrs (fun kv => kv.1.startsWith "http.") then some "HTTP"
          else if List.any attrs (fun kv => kv.1.startsWith "db.") then some "DB"
          else none

/-- The request-name rule of the spec, evaluated over a merged attribute
map and the span name: method and route joined when both present, else
the method, else the span name when non-empty, else absent. -/
def requestNameRule (attrs : AttrMap) (spanName : String) : Option String :=
  match attrsGet attrs "http.method", attrsGet attrs "http.route" with
  | some method, some route => some (method ++ " " ++ route)
  | some method, none => some method
  | none, _ => if spanName.isEmpty then none else some spanName

/-- Agreement between an envelope name string and its payload
discriminant. -/
def nameDataAgree (env : Envelope) : Bool :=
  match env.data with
  | some (Data.request _) => env.name == "Microsoft.ApplicationInsights.Request"
  | some (Data.remoteDependency _) =>
      env.name == "Microsoft.ApplicationInsights.RemoteDependency"
  | some (Data.message _) => env.name == "Microsoft.ApplicationInsights.Message"
  | none => false

/-- A concrete exporter used by the witnesses. -/
def eW : Exporter := Exporter.new "ikey"

/-- A concrete server-kind span with an http.method attribute and one
event, used by the witnesses. -/
def spanServerW : SpanData :=
  { trace_id := 10
    span_id := 3
    parent_span_id := none
    span_kind := SpanKind.server
    name := "myspan"
    start_time := 100
    end_time := 150
    status_code := 0
    attributes := [("http.method", "GET"), ("http.route", "/users")]
    message_events := [{ name := "ev", timestamp := 120, attributes := [] }]
    resource := [] }

/-- The primary envelope produced for the concrete server-kind span. -/
def envW : Envelope :=
  match create_envelopes eW spanServerW with
  | env :: _ => env
  | [] =>
      { name := "", time := "", sample_rate := none, i_key := none,
        tags := none, data := none }

/-- A concrete internal-kind span with Error status and a db.system
attribute, used by the witness of the internal-dependency claim. -/
def spanInternalW : SpanData :=
  { trace_id := 10
    span_id := 4
    parent_span_id := none
    span_kind := SpanKind.internal
    name := "inner"
    start_time := 0
    end_time := 5
    status_code := 2
    attributes := [("db.system", "postgresql")]
    message_events := []
    resource := [] }

/-- A concrete client-kind span with a db.system attribute, used by the
witness of the dependency-type claim. -/
def spanClientW : SpanData :=
  { trace_id := 11
    span_id := 5
    parent_span_id := none
    span_kind := SpanKind.client
    name := "query"
    start_time := 0
    end_time := 5
    status_code := 0
    attributes := [("db.system", "postgresql")]
    message_events := []
    resource := [] }

/-- A concrete client-kind span with an empty name and http.method and
http.route attributes: the counterexample input of the dependency-name
claim. -/
def spanEmptyNameW : SpanData :=
  { trace_id := 12
    span_id := 6
    parent_span_id := none
    span_kind := SpanKind.client
    name := ""
    start_time := 0
    end_time := 7
    status_code := 0
    attributes := [("http.method", "GET"), ("http.route", "/users")]
    message_events := []
    resource := [] }

/-- A fresh metric accumulator: weight zero, value zero. -/
def mFresh : QuickPulseMetric := { name := "cpu", value := 0, weight := 0 }

/-- A concrete successful response with the should-post hint set. -/
def respPostW : QuickPulseResponse :=
  { should_post := true, redirected_host := none, polling_interval_hint := none }

/-! Shared projection lemmas about the dependency conversion. -/

/-- The type_ field of a converted dependency: InProc for the internal
kind, otherwise the attribute-based rule over the merged attributes. -/
theorem remoteDependencyDataFromSpan_type (s : SpanData) :
    (remoteDependencyDataFromSpan s).type_ =
      if s.span_kind == SpanKind.internal then some "InProc"
      else depTypeRule (collect_attrs s.attributes s.resource) := by
  unfold remoteDependencyDataFromSpan depTypeRule
  dsimp only
  repeat' split
  all_goals simp_all

/-- The success field of a converted dependency: forced true for the
internal kind, otherwise the status comparison with OK. -/
theorem remoteDependencyDataFromSpan_success (s : SpanData) :
    (remoteDependencyDataFromSpan s).success =
      if s.span_kind == SpanKind.internal then some true
      else some (s.status_code == statusOK) := by
  unfold remoteDependencyDataFromSpan
  dsimp only
  repeat' split
  all_goals simp_all

/-! The claims. -/

/-- C1: For every span, conversion dispatches on kind alone and totally:
kinds Server and Consumer produce a RequestData payload, and kinds
Client, Producer, and Internal produce a RemoteDependencyData payload; no
kind fails to map and no kind maps to anything else. -/
theorem claim_c1_dispatch (e : Exporter) (s : SpanData) :
    ∃ env rest, create_envelopes e s = env :: rest ∧
      (s.span_kind = SpanKind.server ∨ s.span_kind = SpanKind.consumer ∨
       s.span_kind = SpanKind.client ∨ s.span_kind = SpanKind.producer ∨
       s.span_kind = SpanKind.internal) ∧
      ((s.span_kind = SpanKind.server ∨ s.span_kind = SpanKind.consumer) →
        ∃ d, env.data = some (Data.request d)) ∧
      ((s.span_kind = SpanKind.client ∨ s.span_kind = SpanKind.producer ∨
        s.span_kind = SpanKind.internal) →
        ∃ d, env.data = some (Data.remoteDependency d)) := by
  unfold create_envelopes
  cases hk : s.span_kind <;>
    exact ⟨_, _, rfl, by simp [hk], by simp [hk, sanitizeEnvelope],
      by simp [hk, sanitizeEnvelope]⟩

/-- Witness for C1 at the concrete exporter and server-kind span: the
primary envelope exists and carries a RequestData payload. -/
theorem claim_c1_dispatch_witness :
    ∃ env rest, create_envelopes eW spanServerW = env :: rest ∧
      ∃ d, env.data = some (Data.request d) := by
  obtain ⟨env, rest, heq, _, hreq, _⟩ := claim_c1_dispatch eW spanServerW
  exact ⟨env, rest, heq, hreq (Or.inl rfl)⟩

/-- C2: For every QuickPulse tick, the state and next-wait update follows
the state table: on a successful exchange the controller adopts the
should_post hint (transitioning to Post with the short post interval as
the next wait when the hint is set); on a failed exchange the collecting
state is unchanged unless staleness reaches the max-post-wait threshold
in Post (transition to Ping, fallback wait) or the max-ping-wait
threshold in Ping (stay in Ping, fallback wait). -/
theorem claim_c2_tick_table (st : QPState) (now : Nat) :
    (∀ r : QuickPulseResponse,
      (qpTick st now (some r)).is_collecting = r.should_post ∧
      (r.should_post = true →
        (qpTick st now (some r)).current_timeout = POST_INTERVAL)) ∧
    (st.is_collecting = true →
      (elapsedAtLeast (durationSince now st.last_success_time)
          MAX_POST_WAIT_TIME = true →
        qpTick st now none =
          { st with is_collecting := false,
                    current_timeout := FALLBACK_INTERVAL }) ∧
      (elapsedAtLeast (durationSince now st.last_success_time)
          MAX_POST_WAIT_TIME = false →
        (qpTick st now none).is_collecting = st.is_collecting)) ∧
    (st.is_collecting = false →
      (elapsedAtLeast (durationSince now st.last_success_time)
          MAX_PING_WAIT_TIME = true →
        qpTick st now none =
          { st with current_timeout := FALLBACK_INTERVAL }) ∧
      (elapsedAtLeast (durationSince now st.last_success_time)
          MAX_PING_WAIT_TIME = false →
        (qpTick st now none).is_collecting = st.is_collecting)) := by
  refine ⟨fun r => ⟨?_, ?_⟩, fun hc => ⟨?_, ?_⟩, fun hc => ⟨?_, ?_⟩⟩ <;>
    intros <;> simp_all [qpTick]

/-- Witness for C2: from the initial Ping state, a successful exchange
with the should-post hint set transitions to Post with the post interval
as the next wait. -/
theorem claim_c2_tick_table_witness :
    (qpTick initialQPState 100 (some respPostW)).is_collecting = true ∧
    (qpTick initialQPState 100 (some respPostW)).current_timeout =
      POST_INTERVAL := by
  have h := claim_c2_tick_table initialQPState 100
  exact ⟨(h.1 respPostW).1, (h.1 respPostW).2 rfl⟩

/-- C3: For every span of kind Internal, the resulting
RemoteDependencyData has type InProc and success true, for every status
and every attribute set. -/
theorem claim_c3_internal_dependency (s : SpanData)
    (h : s.span_kind = SpanKind.internal) :
    (remoteDependencyDataFromSpan s).type_ = some "InProc" ∧
    (remoteDependencyDataFromSpan s).success = some true := by
  rw [remoteDependencyDataFromSpan_type, remoteDependencyDataFromSpan_success]
  simp [h]

/-- Witness for C3 at a concrete internal-kind span with Error status and
a db.system attribute. -/
theorem claim_c3_internal_dependency_witness :
    (remoteDependencyDataFromSpan spanInternalW).type_ = some "InProc" ∧
    (remoteDependencyDataFromSpan spanInternalW).success = some true :=
  claim_c3_internal_dependency spanInternalW rfl

/-- C4: For every span of kind Client or Producer, the dependency type is
determined over the merged span-plus-resource attributes by: db.system,
else messaging.system, else HTTP when a key starts with http., else DB
when a key starts with db., else absent. -/
theorem claim_c4_dependency_type (s : SpanData)
    (h : s.span_kind = SpanKind.client ∨ s.span_kind = SpanKind.producer) :
    (remoteDependencyDataFromSpan s).type_ =
      depTypeRule (collect_attrs s.attributes s.resource) := by
  rw [remoteDependencyDataFromSpan_type]
  rcases h with h | h <;> simp [h]

/-- Witness for C4 at a concrete client-kind span carrying a db.system
attribute: the dependency type is that attribute value. -/
theorem claim_c4_dependency_type_witness :
    (remoteDependencyDataFromSpan spanClientW).type_ = some "postgresql" := by
  rw [claim_c4_dependency_type spanClientW (Or.inl rfl)]
  decide

/-- C5: For every span of kind Server or Consumer, the RequestData name
is method and route joined when both attributes are present in the merged
attributes, else the method alone, else the span name when non-empty,
else absent. -/
theorem claim_c5_request_name (s : SpanData)
    (h : s.span_kind = SpanKind.server ∨ s.span_kind = SpanKind.consumer) :
    (requestDataFromSpan s).name =
      requestNameRule (collect_attrs s.attributes s.resource) s.name := by
  unfold requestDataFromSpan requestNameRule
  dsimp only
  repeat' split
  all_goals simp_all [Option.filter]

/-- Witness for C5 at the concrete server-kind span with http.method and
http.route attributes. -/
theorem claim_c5_request_name_witness :
    (requestDataFromSpan spanServerW).name = some "GET /users" := by
  rw [claim_c5_request_name spanServerW (Or.inl rfl)]
  decide

/-- C6, counterexample: the claim says the dependency name is absent when
the span name is empty, but at a concrete client-kind span with an empty
name the name field holds the (present) empty string, so the claimed
option-valued rule fails. -/
theorem claim_c6_counterexample :
    ¬ (some (remoteDependencyDataFromSpan spanEmptyNameW).name =
        if spanEmptyNameW.name.isEmpty then none
        else some spanEmptyNameW.name) := by
  decide

/-- C6, amended: for every span, the RemoteDependencyData name field is
exactly the span's own name — a plain string that holds the empty string,
rather than being absent, when the span name is empty; in particular the
http.method and http.route attributes never affect it. -/
theorem claim_c6_dependency_name_amended (s : SpanData) :
    (remoteDependencyDataFromSpan s).name = s.name := by
  unfold remoteDependencyDataFromSpan
  dsimp only
  repeat' split
  all_goals rfl

/-- C7: every envelope produced by conversion has its name string agree
with its payload discriminant; no envelope has a mismatched name and
payload pair. -/
theorem claim_c7_envelope_agreement (e : Exporter) (s : SpanData)
    (env : Envelope) (h : env ∈ create_envelopes e s) :
    nameDataAgree env = true := by
  unfold create_envelopes at h
  cases hk : s.span_kind <;> rw [hk] at h <;>
    simp only [List.mem_cons, List.mem_map] at h <;>
    rcases h with h | ⟨ev, _, h⟩ <;>
    subst h <;> rfl

/-- Witness for C7 at the concrete primary envelope of the server-kind
span. -/
theorem claim_c7_envelope_agreement_witness : nameDataAgree envW = true :=
  claim_c7_envelope_agreement eW spanServerW envW (by decide)

/-- C8: folding a sample into a weight-zero accumulator sets value to the
sample and weight to one; folding into weight w positive averages with
weight w + 1; the run 10, 20, 30 from a fresh accumulator yields means
10, 15, 20 with weights 1, 2, 3; reset always yields value zero, weight
zero. -/
theorem claim_c8_metric_accumulator (m : QuickPulseMetric) (v : ℚ) :
    (m.weight = 0 → add_metric m v = { m with value := v, weight := 1 }) ∧
    (0 < m.weight →
      add_metric m v =
        { m with
          value := (m.value * m.weight + v) / (m.weight + 1)
          weight := m.weight + 1 }) ∧
    reset_metric m = { m with value := 0, weight := 0 } ∧
    add_metric mFresh 10 = { mFresh with value := 10, weight := 1 } ∧
    add_metric (add_metric mFresh 10) 20 =
      { mFresh with value := 15, weight := 2 } ∧
    add_metric (add_metric (add_metric mFresh 10) 20) 30 =
      { mFresh with value := 20, weight := 3 } := by
  refine ⟨fun h0 => ?_, fun hpos => ?_, rfl, ?_, ?_, ?_⟩ <;>
    norm_num [add_metric, mFresh] <;> simp_all [add_metric]

/-- Witness for C8: folding a sample into a concrete weight-three
accumulator averages it in, exercising the positive-weight rule. -/
theorem claim_c8_metric_accumulator_witness :
    add_metric { name := "cpu", value := 12, weight := 3 } 4 =
      { name := "cpu", value := 10, weight := 4 } := by
  have h :=
    (claim_c8_metric_accumulator
      { name := "cpu", value := 12, weight := 3 } 4).2.1 (by norm_num)
  rw [h]
  norm_num

/-- C9: for requests and dependencies alike, the duration field encodes
end time minus start time, floored at zero when the end precedes the
start. -/
theorem claim_c9_duration_floor (s : SpanData) :
    (requestDataFromSpan s).duration =
      duration_to_string ((durationSince s.end_time s.start_time).getD 0) ∧
    (remoteDependencyDataFromSpan s).duration =
      duration_to_string ((durationSince s.end_time s.start_time).getD 0) ∧
    (((durationSince s.end_time s.start_time).getD 0 : ℤ) =
      max 0 ((s.end_time : ℤ) - (s.start_time : ℤ))) := by
  refine ⟨?_, ?_, ?_⟩
  case _ =>
    unfold requestDataFromSpan
    dsimp only
    repeat' split
    all_goals rfl
  case _ =>
    unfold remoteDependencyDataFromSpan
    dsimp only
    repeat' split
    all_goals rfl
  case _ =>
    unfold durationSince
    split <;> simp <;> omega

/-- C10: the last-success time starts at the Unix epoch, so when the very
first exchange fails the elapsed time since last success already meets
both staleness thresholds and the next wait is the long fallback
interval, not the short ping interval. -/
theorem claim_c10_first_failure_fallback (now : Nat)
    (h : MAX_PING_WAIT_TIME ≤ now) :
    elapsedAtLeast (durationSince now initialQPState.last_success_time)
      MAX_POST_WAIT_TIME = true ∧
    elapsedAtLeast (durationSince now initialQPState.last_success_time)
      MAX_PING_WAIT_TIME = true ∧
    (qpTick initialQPState now none).current_timeout = FALLBACK_INTERVAL ∧
    (qpTick initialQPState now none).current_timeout ≠ PING_INTERVAL := by
  have h60 : 60 ≤ now := h
  have h1 : elapsedAtLeast (durationSince now 0) MAX_POST_WAIT_TIME = true := by
    simp [elapsedAtLeast, durationSince, MAX_POST_WAIT_TIME]
    omega
  have h2 : elapsedAtLeast (durationSince now 0) MAX_PING_WAIT_TIME = true := by
    simp [elapsedAtLeast, durationSince, MAX_PING_WAIT_TIME]
    omega
  refine ⟨h1, h2, ?_, ?_⟩ <;>
    simp_all [qpTick, initialQPState, FALLBACK_INTERVAL, PING_INTERVAL]

/-- Witness for C10 at the concrete first-failure time of 100 seconds
after the epoch. -/
theorem claim_c10_first_failure_fallback_witness :
    elapsedAtLeast (durationSince 100 initialQPState.last_success_time)
      MAX_POST_WAIT_TIME = true ∧
    elapsedAtLeast (durationSince 100 initialQPState.last_success_time)
      MAX_PING_WAIT_TIME = true ∧
    (qpTick initialQPState 100 none).current_timeout = FALLBACK_INTERVAL ∧
    (qpTick initialQPState 100 none).current_timeout ≠ PING_INTERVAL :=
  claim_c10_first_failure_fallback 100 (by decide)

end AppInsights
